import Mathlib

/-
Verification of the LLM council deliberation engine
(`backend/src/services/council.py`, `backend/src/models/council.py`,
`backend/src/api/worker_routes.py`) against its specification.

The Python code is shallowly embedded: pydantic models become structures,
async stage methods become pure functions parameterised by oracles that
supply the outcome of each external model-generation call (content, token
counts, wall-clock duration, or an exception message), and Python dicts
become insertion-ordered association lists.  `datetime` values and the
HTTP transport itself are not modelled; every other branch of the code is
transcribed directly.

A load-bearing defect shapes the stage models.  services/council.py
(lines 9-22) imports `StageLatencyStats`, `StageTokenUsage` and
`TokenUsage` from `src.models`, but models/__init__.py exports none of
them, and the class `StageLatencyStats` is defined nowhere in the
repository; the pydantic `CouncilSession` (models/council.py) also has
no `latency_stats` field, although every stage method assigns to one
(council.py lines 177, 311, 546).  Under strict Python semantics the
service module cannot even be imported (test.py's
`from src.services import CouncilService` would raise ImportError).
Read statement by statement — `TokenUsage` and `StageTokenUsage` do
exist in models/council.py, so the token-usage bookkeeping is granted —
each stage method performs its data assignments and its token-usage
bookkeeping and then unconditionally raises while evaluating
`_calculate_stage_latency`, whose `return StageLatencyStats(...)`
(council.py line 710) names a class that does not exist.  The stage
models below therefore return the session as mutated at that raise
point, paired with the exception's message: no stage can complete
normally, and `run_council` always ends in the `ERROR` stage during
Stage 1.
-/

namespace Council

/-- `SessionStage` enum (models/council.py). -/
inductive SessionStage where
  | pending
  | opinions
  | review
  | synthesis
  | complete
  | error
deriving DecidableEq, Repr, Inhabited

/-- `AgentConfig` (models/council.py): display name and Ollama model id. -/
structure AgentConfig where
  name : String
  model : String
deriving DecidableEq, Repr, Inhabited

/-- `AgentResponse` (models/council.py): one agent's Stage-1 opinion. -/
structure AgentResponse where
  agent_id : String
  agent_name : String
  model : String
  content : String
  prompt_tokens : Nat
  completion_tokens : Nat
  tokens_used : Nat
  duration_ms : Nat
deriving DecidableEq, Repr, Inhabited

/-- `ReviewRanking` (models/council.py): one score given to one target. -/
structure ReviewRanking where
  agent_id : String
  score : Int
  reasoning : String
deriving DecidableEq, Repr, Inhabited

/-- `ReviewResult` (models/council.py, lines 111-119).  The pydantic class
declares exactly these five fields: it has NO `model` field and NO
`duration_ms` field, even though `_aggregate_pairwise_results` passes
`model=` and `duration_ms=` keyword arguments when constructing it
(pydantic's default `extra='ignore'` silently drops unknown kwargs). -/
structure ReviewResult where
  reviewer_id : String
  reviewer_name : String
  rankings : List ReviewRanking
  prompt_tokens : Nat
  completion_tokens : Nat
deriving DecidableEq, Repr, Inhabited

/-- `TokenUsage` (models/council.py). -/
structure TokenUsage where
  prompt_tokens : Nat
  completion_tokens : Nat
  total_tokens : Nat
deriving DecidableEq, Repr, Inhabited

/-- `StageTokenUsage` (models/council.py); `by_model` is a Python dict,
modelled as an insertion-ordered association list. -/
structure StageTokenUsage where
  stage : String
  total_prompt_tokens : Nat
  total_completion_tokens : Nat
  total_tokens : Nat
  by_model : List (String × TokenUsage)
deriving DecidableEq, Repr, Inhabited

/-- `SessionTokenUsage` (models/council.py). -/
structure SessionTokenUsage where
  stage1_opinions : Option StageTokenUsage
  stage2_review : Option StageTokenUsage
  stage3_synthesis : Option StageTokenUsage
  total_prompt_tokens : Nat
  total_completion_tokens : Nat
  total_tokens : Nat
deriving DecidableEq, Repr, Inhabited

/-- `FinalAnswer` (models/council.py). -/
structure FinalAnswer where
  content : String
  chairman_model : String
  tokens_used : Nat
  duration_ms : Nat
  sources_cited : List String
deriving DecidableEq, Repr, Inhabited

/-- `CouncilSession` (models/council.py), without `session_id` and the
`datetime` fields (`created_at` / `updated_at`).  Faithfully to the
pydantic class, there is NO `latency_stats` field — the stage methods in
services/council.py nevertheless write to one, which is part of why no
stage can complete (see the file header). -/
structure CouncilSession where
  query : String
  stage : SessionStage
  agents : List AgentConfig
  opinions : List AgentResponse
  reviews : List ReviewResult
  token_usage : SessionTokenUsage
  final_answer : Option FinalAnswer
  error : Option String
deriving DecidableEq, Repr, Inhabited

/-- `CouncilRequest` (models/council.py).  pydantic validates
`1 ≤ selected_agents.length ≤ 5`; the bound appears as a hypothesis where
a claim needs it. -/
structure CouncilRequest where
  query : String
  selected_agents : List AgentConfig
  chairman_model : String
deriving DecidableEq, Repr, Inhabited

/-- `GenerateResponse` (models/council.py, lines 72-79): the worker's
reply shape.  It carries `eval_count` but no `prompt_eval_count`. -/
structure GenerateResponse where
  model : String
  content : String
  done : Bool
  total_duration : Nat
  eval_count : Nat
deriving DecidableEq, Repr, Inhabited

/-- Raw result of `OllamaClient.generate` as the Ollama HTTP API returns
it; Ollama does include a `prompt_eval_count` alongside `eval_count`. -/
structure OllamaGenerateResult where
  response : String
  done : Bool
  total_duration : Nat
  eval_count : Nat
  prompt_eval_count : Nat
deriving DecidableEq, Repr, Inhabited

/-! ### A model of Python JSON values

`json.loads` output is modelled by `Json`; objects are association lists
(duplicate keys already collapsed, as `json.loads` keeps the last one).
JSON numeric literals are modelled as integers (the pairwise protocol asks
for integer scores 1-10; float truncation is not modelled). -/

inductive Json where
  | null
  | bool (b : Bool)
  | num (n : Int)
  | str (s : String)
  | arr (xs : List Json)
  | obj (kvs : List (String × Json))
deriving Inhabited

/-- Python exceptions relevant to `_parse_pairwise_response`. -/
inductive PyExc where
  | attributeError
  | typeError
  | valueError
deriving DecidableEq, Repr, Inhabited

/-- `dict.get(k, d)`: first-match lookup with a default. -/
def dictGet : List (String × Json) → String → Json → Json
  | [], _, d => d
  | (k', v) :: rest, k, d => if k' = k then v else dictGet rest k d

/-- Python `int(x)` on a JSON value: succeeds on numbers, booleans and
numeric strings, raises `TypeError`/`ValueError` otherwise (whitespace
handling of `int(str)` is approximated by `String.trim`). -/
def pyInt : Json → Except PyExc Int
  | .num n => .ok n
  | .bool b => .ok (if b then 1 else 0)
  | .str s =>
    match s.trim.toInt? with
    | some n => .ok n
    | none => .error .valueError
  | .null => .error .typeError
  | .arr _ => .error .typeError
  | .obj _ => .error .typeError

/-- Python `str(x)` on a JSON value (total, never raises).  The exact
rendering of containers is immaterial to every claim and abbreviated. -/
def pyStr : Json → String
  | .null => "None"
  | .bool b => if b then "True" else "False"
  | .num n => toString n
  | .str s => s
  | .arr _ => "[...]"
  | .obj _ => "{...}"

/-- `CouncilService._parse_pairwise_response` (services/council.py,
lines 389-407), parameterised by the outcome of `json.loads`:
`none` models a `json.JSONDecodeError`, `some j` a successful parse of
the raw string into the value `j`.

Transcription notes: the `try` block runs `data.get("score", 5)`; when
`data` is not a dict (valid JSON whose top level is a number, string,
list, boolean or null) attribute lookup of `.get` raises
`AttributeError`, which is NOT in the caught tuple
`(json.JSONDecodeError, KeyError, TypeError, ValueError)` and therefore
propagates.  Inside the dict case, `int(...)` failures (`TypeError` /
`ValueError`) are caught and replaced by the neutral default. -/
def parse_pairwise_response (parsed : Option Json) : Except PyExc (Int × String) :=
  match parsed with
  | none => .ok (5, "Parse error - defaulting to neutral score")
  | some (.obj kvs) =>
    match pyInt (dictGet kvs "score" (.num 5)) with
    | .error _ => .ok (5, "Parse error - defaulting to neutral score")
    | .ok n =>
      .ok (max 1 (min 10 n), pyStr (dictGet kvs "reasoning" (.str "No reasoning provided")))
  | some _ => .error .attributeError

/-! ### Insertion-ordered dictionaries

Python `dict`s written by the service follow one pattern: look up a key,
initialise it if absent, then mutate the stored value.  `upsert k f init`
models `d[k] = f(d[k]) if k in d else init`, appending new keys at the
end (dict insertion order). -/

def upsert {β : Type} (k : String) (f : β → β) (init : β) :
    List (String × β) → List (String × β)
  | [] => [(k, init)]
  | (k', v) :: rest =>
    if k' = k then (k', f v) :: rest else (k', v) :: upsert k f init rest

/-- Keys of an association list, in order. -/
def keysOf {β : Type} (l : List (String × β)) : List String := l.map Prod.fst

/-- First-match lookup with default (Python `d[k]` on keys known present,
`d.get(k, dflt)` otherwise). -/
def getVal {β : Type} (dflt : β) : List (String × β) → String → β
  | [], _ => dflt
  | (k', v) :: rest, k => if k' = k then v else getVal dflt rest k

/-- Sum of a numeric measure of the stored values. -/
def sumVal {β : Type} (μ : β → Nat) (l : List (String × β)) : Nat :=
  (l.map (fun p => μ p.2)).sum

theorem keysOf_nil {β : Type} : keysOf ([] : List (String × β)) = [] := rfl

theorem keysOf_cons {β : Type} (p : String × β) (l : List (String × β)) :
    keysOf (p :: l) = p.1 :: keysOf l := rfl

theorem upsert_cons_self {β : Type} (k : String) (f : β → β) (init : β)
    (v : β) (rest : List (String × β)) :
    upsert k f init ((k, v) :: rest) = (k, f v) :: rest := by
  simp [upsert]

theorem upsert_cons_ne {β : Type} {k k' : String} (f : β → β) (init : β)
    (v : β) (rest : List (String × β)) (hk : k' ≠ k) :
    upsert k f init ((k', v) :: rest) = (k', v) :: upsert k f init rest := by
  simp [upsert, hk]

theorem keysOf_upsert {β : Type} (k : String) (f : β → β) (init : β)
    (l : List (String × β)) :
    keysOf (upsert k f init l) =
      if k ∈ keysOf l then keysOf l else keysOf l ++ [k] := by
  induction l with
  | nil => simp [upsert, keysOf]
  | cons p rest ih =>
    obtain ⟨k', v⟩ := p
    by_cases hk : k' = k
    · subst hk
      simp [upsert_cons_self, keysOf_cons]
    · rw [upsert_cons_ne _ _ _ _ hk, keysOf_cons, keysOf_cons, ih]
      have hne : ¬ k = k' := fun h => hk h.symm
      by_cases hmem : k ∈ keysOf rest
      · have h1 : k ∈ k' :: keysOf rest := List.mem_cons_of_mem _ hmem
        rw [if_pos hmem, if_pos h1]
      · have h1 : k ∉ k' :: keysOf rest := by
          intro hc
          rcases List.mem_cons.mp hc with h | h
          · exact hne h
          · exact hmem h
        rw [if_neg hmem, if_neg h1]
        rfl

theorem mem_keysOf_upsert {β : Type} {k a : String} {f : β → β} {init : β}
    {l : List (String × β)} :
    a ∈ keysOf (upsert k f init l) ↔ a ∈ keysOf l ∨ a = k := by
  rw [keysOf_upsert]
  by_cases hmem : k ∈ keysOf l
  · simp only [if_pos hmem]
    constructor
    · exact Or.inl
    · rintro (h | rfl)
      · exact h
      · exact hmem
  · simp [if_neg hmem, List.mem_append]

theorem nodup_keysOf_upsert {β : Type} {k : String} {f : β → β} {init : β}
    {l : List (String × β)} (h : (keysOf l).Nodup) :
    (keysOf (upsert k f init l)).Nodup := by
  rw [keysOf_upsert]
  by_cases hmem : k ∈ keysOf l
  · simpa [if_pos hmem]
  · rw [if_neg hmem]
    simpa [List.nodup_append] using ⟨h, fun hk => hmem hk⟩

theorem mem_upsert {β : Type} {k : String} {f : β → β} {init : β}
    {l : List (String × β)} {p : String × β} (hp : p ∈ upsert k f init l) :
    p ∈ l ∨ (p.1 = k ∧ (p = (k, init) ∨ ∃ v, (k, v) ∈ l ∧ p = (k, f v))) := by
  induction l with
  | nil =>
    have h : p = (k, init) := by simpa [upsert] using hp
    exact Or.inr ⟨by rw [h], Or.inl h⟩
  | cons q rest ih =>
    obtain ⟨k', v⟩ := q
    by_cases hk : k' = k
    · subst hk
      rw [upsert_cons_self] at hp
      rcases List.mem_cons.mp hp with h | h
      · exact Or.inr ⟨by rw [h], Or.inr ⟨v, List.mem_cons_self _ _, h⟩⟩
      · exact Or.inl (List.mem_cons_of_mem _ h)
    · rw [upsert_cons_ne _ _ _ _ hk] at hp
      rcases List.mem_cons.mp hp with h | h
      · exact Or.inl (h ▸ List.mem_cons_self _ _)
      · rcases ih h with h2 | ⟨h1, h2⟩
        · exact Or.inl (List.mem_cons_of_mem _ h2)
        · refine Or.inr ⟨h1, ?_⟩
          rcases h2 with h2 | ⟨w, hw, hpw⟩
          · exact Or.inl h2
          · exact Or.inr ⟨w, List.mem_cons_of_mem _ hw, hpw⟩

theorem sumVal_upsert {β : Type} {μ : β → Nat} {m : Nat} {k : String}
    {f : β → β} {init : β} (hf : ∀ v, μ (f v) = μ v + m) (hi : μ init = m)
    (l : List (String × β)) :
    sumVal μ (upsert k f init l) = sumVal μ l + m := by
  induction l with
  | nil => simp [upsert, sumVal, hi]
  | cons q rest ih =>
    obtain ⟨k', v⟩ := q
    by_cases hk : k' = k
    · subst hk
      rw [upsert_cons_self]
      simp only [sumVal, List.map_cons, List.sum_cons, hf]
      omega
    · rw [upsert_cons_ne _ _ _ _ hk]
      simp only [sumVal, List.map_cons, List.sum_cons] at *
      omega

theorem getVal_upsert_self {β : Type} {dflt init : β} {k : String} {f : β → β}
    (l : List (String × β)) :
    getVal dflt (upsert k f init l) k =
      if k ∈ keysOf l then f (getVal dflt l k) else init := by
  induction l with
  | nil => simp [upsert, getVal, keysOf]
  | cons q rest ih =>
    obtain ⟨k', v⟩ := q
    by_cases hk : k' = k
    · subst hk
      rw [upsert_cons_self]
      simp [getVal, keysOf_cons]
    · rw [upsert_cons_ne _ _ _ _ hk, keysOf_cons]
      have hne : ¬ k = k' := fun h => hk h.symm
      simp only [getVal, if_neg hk, ih]
      by_cases hmem : k ∈ keysOf rest
      · have h1 : k ∈ k' :: keysOf rest := List.mem_cons_of_mem _ hmem
        rw [if_pos hmem, if_pos h1]
      · have h1 : k ∉ k' :: keysOf rest := by
          intro hc
          rcases List.mem_cons.mp hc with h | h
          · exact hne h
          · exact hmem h
        rw [if_neg hmem, if_neg h1]

theorem getVal_upsert_ne {β : Type} {dflt init : β} {k a : String} {f : β → β}
    (l : List (String × β)) (h : a ≠ k) :
    getVal dflt (upsert k f init l) a = getVal dflt l a := by
  induction l with
  | nil => simp [upsert, getVal, Ne.symm h]
  | cons q rest ih =>
    obtain ⟨k', v⟩ := q
    by_cases hk : k' = k
    · subst hk
      rw [upsert_cons_self]
      simp [getVal, Ne.symm h]
    · rw [upsert_cons_ne _ _ _ _ hk]
      by_cases ha : k' = a
      · subst ha
        simp [getVal]
      · simp [getVal, if_neg ha, ih]

/-! ### Stage 1: first opinions (services/council.py, lines 115-242)

Each agent's generation call is summarised by an oracle value: `.ok` with
the extracted content/token/duration data, or `.error msg` when the call
raised (`asyncio.gather(..., return_exceptions=True)` hands the exception
object back in place of a result). -/

/-- Data a successful generation call contributes to an `AgentResponse`:
the raw content plus the `prompt_eval_count` / `eval_count` fields and
the measured wall-clock duration. -/
structure GenResult where
  content : String
  prompt_tokens : Nat
  completion_tokens : Nat
  duration_ms : Nat
deriving DecidableEq, Repr, Inhabited

/-- Positional agent id `f"agent_{i + 1}"` for 0-based index `i`. -/
def mkAgentId (i : Nat) : String := "agent_" ++ toString (i + 1)

/-- Successful branch of `CouncilService._generate_opinion`. -/
def generate_opinion (i : Nat) (agent : AgentConfig) (out : GenResult) :
    AgentResponse :=
  { agent_id := mkAgentId i
    agent_name := agent.name
    model := agent.model
    content := out.content
    prompt_tokens := out.prompt_tokens
    completion_tokens := out.completion_tokens
    tokens_used := out.prompt_tokens + out.completion_tokens
    duration_ms := out.duration_ms }

/-- Error placeholder built in `stage1_opinions` when a gathered result
`isinstance(result, Exception)` (services/council.py, lines 149-163). -/
def errorOpinion (i : Nat) (agent : AgentConfig) (e : String) : AgentResponse :=
  { agent_id := mkAgentId i
    agent_name := agent.name
    model := agent.model
    content := "[Error: " ++ e ++ "]"
    prompt_tokens := 0
    completion_tokens := 0
    tokens_used := 0
    duration_ms := 0 }

/-- Dispatch on one gathered Stage-1 result. -/
def opinionFor (i : Nat) (agent : AgentConfig) :
    Except String GenResult → AgentResponse
  | .ok out => generate_opinion i agent out
  | .error e => errorOpinion i agent e

/-- The opinions list built by `CouncilService.stage1_opinions`:
`for i, agent in enumerate(session.agents)` is transcribed as a map over
`List.range agents.length` with positional indexing (the `getD` default
is unreachable since `i < agents.length`).  `asyncio.gather` returns
results in task order, so the list is in agent order. -/
def stage1_opinions (agents : List AgentConfig)
    (gen : Nat → Except String GenResult) : List AgentResponse :=
  (List.range agents.length).map fun i =>
    opinionFor i (agents.getD i default) (gen i)

/-! ### Stage 2: pairwise review (services/council.py, lines 248-467) -/

/-- Data a successful pairwise generation call feeds into
`_generate_pairwise_review`: the `json.loads` outcome of the raw content
(`none` = parse exception) plus token counts and duration. -/
structure PairOutcome where
  parsed : Option Json
  prompt_tokens : Nat
  completion_tokens : Nat
  duration_ms : Nat
deriving Inhabited

/-- The dict returned by `CouncilService._generate_pairwise_review`
(services/council.py, lines 378-387). -/
structure PairEval where
  reviewer_id : String
  target_id : String
  score : Int
  reasoning : String
  prompt_tokens : Nat
  completion_tokens : Nat
  duration_ms : Nat
  model : String
deriving DecidableEq, Repr, Inhabited

/-- Render a Python exception as its message string. -/
def pyExcMsg : PyExc → String
  | .attributeError => "AttributeError"
  | .typeError => "TypeError"
  | .valueError => "ValueError"

/-- `CouncilService._generate_pairwise_review` given the generation-call
outcome: parses the raw content (which may itself raise, see
`parse_pairwise_response`) and packages the result dict. -/
def generate_pairwise_review (reviewer_id target_id model : String)
    (out : PairOutcome) : Except String PairEval :=
  match parse_pairwise_response out.parsed with
  | .error e => .error (pyExcMsg e)
  | .ok (score, reasoning) =>
    .ok { reviewer_id := reviewer_id
          target_id := target_id
          score := score
          reasoning := reasoning
          prompt_tokens := out.prompt_tokens
          completion_tokens := out.completion_tokens
          duration_ms := out.duration_ms
          model := model }

/-- Ordered reviewer/target index pairs of `stage2_review`:
`for i, reviewer; for j, target; if i == j: continue`. -/
def pairIndices (n : Nat) : List (Nat × Nat) :=
  (List.range n).flatMap fun i =>
    ((List.range n).filter fun j => j ≠ i).map fun j => (i, j)

/-- Metadata tuple `(reviewer_id, reviewer_name, model)` recorded per
pairwise task (services/council.py, line 293). -/
structure PairMeta where
  reviewer_id : String
  reviewer_name : String
  model : String
deriving DecidableEq, Repr, Inhabited

/-- Combined outcome of pairwise task `(i, j)`: either the exception of
the generation call / of parsing, or the evaluation dict. -/
def pairCall (agents : List AgentConfig)
    (pairGen : Nat → Nat → Except String PairOutcome) (i j : Nat) :
    Except String PairEval :=
  match pairGen i j with
  | .error e => .error e
  | .ok out =>
    generate_pairwise_review (mkAgentId i) (mkAgentId j)
      (agents.getD i default).model out

/-- The `zip(task_metadata, results)` list that
`_aggregate_pairwise_results` receives, in task construction order. -/
def pairEntries (agents : List AgentConfig)
    (pairGen : Nat → Nat → Except String PairOutcome) :
    List (PairMeta × Except String PairEval) :=
  (pairIndices agents.length).map fun p =>
    ({ reviewer_id := mkAgentId p.1
       reviewer_name := (agents.getD p.1 default).name
       model := (agents.getD p.1 default).model },
     pairCall agents pairGen p.1 p.2)

/-- The `grouped[reviewer_id]` record of `_aggregate_pairwise_results`. -/
structure GroupData where
  reviewer_name : String
  model : String
  rankings : List ReviewRanking
  prompt_tokens : Nat
  completion_tokens : Nat
  duration_ms : Nat
deriving DecidableEq, Repr, Inhabited

/-- The `ReviewRanking` appended for one successful evaluation. -/
def mkRanking (pe : PairEval) : ReviewRanking :=
  { agent_id := pe.target_id, score := pe.score, reasoning := pe.reasoning }

/-- Fold the accumulated group for one successful evaluation. -/
def addEval (pe : PairEval) (d : GroupData) : GroupData :=
  { d with
    rankings := d.rankings ++ [mkRanking pe]
    prompt_tokens := d.prompt_tokens + pe.prompt_tokens
    completion_tokens := d.completion_tokens + pe.completion_tokens
    duration_ms := d.duration_ms + pe.duration_ms }

/-- Fresh group created when `reviewer_id not in grouped`, after the
first successful evaluation has been folded in. -/
def initGroup (m : PairMeta) (pe : PairEval) : GroupData :=
  addEval pe
    { reviewer_name := m.reviewer_name
      model := m.model
      rankings := []
      prompt_tokens := 0
      completion_tokens := 0
      duration_ms := 0 }

/-- One iteration of the grouping loop: exceptions are skipped
(`if isinstance(result, Exception): continue`). -/
def groupStep (acc : List (String × GroupData))
    (e : PairMeta × Except String PairEval) : List (String × GroupData) :=
  match e.2 with
  | .error _ => acc
  | .ok pe => upsert e.1.reviewer_id (addEval pe) (initGroup e.1 pe) acc

/-- `ReviewResult(reviewer_id=rid, reviewer_name=..., model=...,
rankings=..., prompt_tokens=..., completion_tokens=..., duration_ms=...)`
— the `model=` and `duration_ms=` kwargs are dropped because the pydantic
`ReviewResult` class declares neither field. -/
def toReviewResult (rid : String) (d : GroupData) : ReviewResult :=
  { reviewer_id := rid
    reviewer_name := d.reviewer_name
    rankings := d.rankings
    prompt_tokens := d.prompt_tokens
    completion_tokens := d.completion_tokens }

/-- `CouncilService._aggregate_pairwise_results` (lines 409-467). -/
def aggregate_pairwise_results
    (entries : List (PairMeta × Except String PairEval)) : List ReviewResult :=
  (entries.foldl groupStep []).map fun p => toReviewResult p.1 p.2

/-! ### Mean scores and top agents (services/council.py, lines 563-596) -/

/-- Inner loop body of the `scores` accumulation: append the ranking's
score to the list keyed by its `agent_id` (creating the key if new). -/
def scoreStep (acc : List (String × List Int)) (rk : ReviewRanking) :
    List (String × List Int) :=
  upsert rk.agent_id (fun l => l ++ [rk.score]) [rk.score] acc

/-- The `scores: dict[str, list[int]]` accumulation shared by
`_format_rankings_for_chairman` and `_get_top_ranked_agents`: every
ranking's score is appended to the list keyed by its `agent_id`. -/
def collectScores (reviews : List ReviewResult) : List (String × List Int) :=
  reviews.foldl (fun acc r => r.rankings.foldl scoreStep acc) []

/-- `sum(score_list) / len(score_list)` over the rationals (Python
divides two exact integers; the quotient is modelled exactly). -/
def ratMean (l : List Int) : ℚ :=
  ((l.map fun n : Int => (n : ℚ)).sum) / (l.length : ℚ)

/-- The per-agent mean score the chairman summary reports for `aid`
(`_format_rankings_for_chairman`, lines 573-577). -/
def meanScoreFor (reviews : List ReviewResult) (aid : String) : ℚ :=
  ratMean (getVal [] (collectScores reviews) aid)

/-- `CouncilService._get_top_ranked_agents` (lines 581-596): averages of
the nonempty score lists, sorted by score descending (Python's stable
`sort(..., reverse=True)`), truncated to `top_n`, ids only. -/
def get_top_ranked_agents (reviews : List ReviewResult) (top_n : Nat) :
    List String :=
  let scores := collectScores reviews
  let averages := (scores.filter fun p => ¬ p.2.isEmpty).map
    fun p => (p.1, ratMean p.2)
  let sorted := averages.mergeSort fun a b => b.2 ≤ a.2
  (sorted.take top_n).map Prod.fst

/-! ### Token-usage accounting (services/council.py, lines 602-670) -/

/-- What `getattr(item, ...)` yields inside `_calculate_stage_usage` for
one item: the `model` attribute (or the `"unknown"` fallback when the
item's class has no such field) and the token counts. -/
structure UsageItem where
  model : String
  prompt_tokens : Nat
  completion_tokens : Nat
deriving DecidableEq, Repr, Inhabited

/-- `AgentResponse` declares `model`, so `getattr` finds it. -/
def AgentResponse.usageItem (o : AgentResponse) : UsageItem :=
  { model := o.model
    prompt_tokens := o.prompt_tokens
    completion_tokens := o.completion_tokens }

/-- `ReviewResult` (models/council.py) declares NO `model` field, so
`getattr(item, "model", "unknown")` returns `"unknown"` for every
review-stage item. -/
def ReviewResult.usageItem (r : ReviewResult) : UsageItem :=
  { model := "unknown"
    prompt_tokens := r.prompt_tokens
    completion_tokens := r.completion_tokens }

/-- Loop body of `_calculate_stage_usage`: running totals plus the
per-model breakdown dict. -/
def usageStep (acc : Nat × Nat × List (String × TokenUsage)) (it : UsageItem) :
    Nat × Nat × List (String × TokenUsage) :=
  (acc.1 + it.prompt_tokens,
   acc.2.1 + it.completion_tokens,
   upsert it.model
     (fun u => { prompt_tokens := u.prompt_tokens + it.prompt_tokens
                 completion_tokens := u.completion_tokens + it.completion_tokens
                 total_tokens := u.total_tokens + it.prompt_tokens + it.completion_tokens })
     { prompt_tokens := it.prompt_tokens
       completion_tokens := it.completion_tokens
       total_tokens := it.prompt_tokens + it.completion_tokens }
     acc.2.2)

/-- `CouncilService._calculate_stage_usage` (lines 602-646). -/
def calculate_stage_usage (stage : String) (items : List UsageItem) :
    StageTokenUsage :=
  let acc := items.foldl usageStep (0, 0, [])
  { stage := stage
    total_prompt_tokens := acc.1
    total_completion_tokens := acc.2.1
    total_tokens := acc.1 + acc.2.1
    by_model := acc.2.2 }

/-- `CouncilService._update_total_usage` (lines 648-670). -/
def update_total_usage (tu : SessionTokenUsage) : SessionTokenUsage :=
  let p1 := (tu.stage1_opinions.map StageTokenUsage.total_prompt_tokens).getD 0
  let c1 := (tu.stage1_opinions.map StageTokenUsage.total_completion_tokens).getD 0
  let p2 := (tu.stage2_review.map StageTokenUsage.total_prompt_tokens).getD 0
  let c2 := (tu.stage2_review.map StageTokenUsage.total_completion_tokens).getD 0
  let p3 := (tu.stage3_synthesis.map StageTokenUsage.total_prompt_tokens).getD 0
  let c3 := (tu.stage3_synthesis.map StageTokenUsage.total_completion_tokens).getD 0
  { tu with
    total_prompt_tokens := p1 + p2 + p3
    total_completion_tokens := c1 + c2 + c3
    total_tokens := (p1 + p2 + p3) + (c1 + c2 + c3) }

/-! ### Session operations and the orchestrator
(services/council.py, lines 88-105, 115-184, 248-318, 473-554, 731-766)

Each stage method mutates the session in place and then raises in its
latency bookkeeping (see the file header), so it is modelled as a
function returning `CouncilSession × String`: the session as mutated at
the raise point, paired with `str(e)` — exactly what `run_council`'s
`except` block observes.  `stage2_review` has one earlier raise site,
the `session.opinions[j]` indexing (IndexError), modelled by its
guard. -/

/-- Message of the exception every stage's latency bookkeeping raises:
the right-hand side of `session.latency_stats.<slot> = self.
_calculate_stage_latency(...)` is evaluated first, and
`_calculate_stage_latency` ends in `return StageLatencyStats(...)`
(council.py line 710), naming a class defined nowhere in the repository
— a `NameError`.  (Even were the class to exist, `CouncilSession` has no
`latency_stats` attribute to assign to.) -/
def latency_crash_msg : String := "name 'StageLatencyStats' is not defined"

/-- Field defaults of a fresh `SessionTokenUsage`. -/
def emptySessionUsage : SessionTokenUsage :=
  { stage1_opinions := none
    stage2_review := none
    stage3_synthesis := none
    total_prompt_tokens := 0
    total_completion_tokens := 0
    total_tokens := 0 }

/-- `CouncilService.create_session`: assigns display names
(`agent.name or f"Agent_{i + 1}"`, the `or` replacing a falsy empty
string) and starts the session at stage `PENDING` with empty outputs. -/
def create_session (request : CouncilRequest) : CouncilSession :=
  { query := request.query
    stage := .pending
    agents := (List.range request.selected_agents.length).map fun i =>
      let agent := request.selected_agents.getD i default
      { name := if agent.name = "" then "Agent_" ++ toString (i + 1) else agent.name
        model := agent.model }
    opinions := []
    reviews := []
    token_usage := emptySessionUsage
    final_answer := none
    error := none }

/-- `CouncilService.stage1_opinions` applied to a session: sets the
stage to `OPINIONS` (council.py:130), assigns the gathered opinions
(:167), records the Stage-1 token usage and totals (:170-174), and then
raises in the latency bookkeeping (:177-181) before its `return` — the
result is the session at the raise point plus the exception message. -/
def stage1Update (s : CouncilSession)
    (gen : Nat → Except String GenResult) : CouncilSession × String :=
  let ops := stage1_opinions s.agents gen
  ({ s with
     stage := .opinions
     opinions := ops
     token_usage := update_total_usage
       { s.token_usage with
         stage1_opinions :=
           some (calculate_stage_usage "opinions" (ops.map AgentResponse.usageItem)) } },
   latency_crash_msg)

/-- `CouncilService.stage2_review` applied to a session: sets the stage
to `REVIEW` (council.py:266), and either raises `IndexError` at the
`session.opinions[j]` read (:282) when a target index is out of range,
or assigns the aggregated reviews (:301) and the Stage-2 token usage
(:304-308) and then raises in the latency bookkeeping (:311-315) before
its `return`.  Either way the method never completes. -/
def stage2Update (s : CouncilSession)
    (pairGen : Nat → Nat → Except String PairOutcome) :
    CouncilSession × String :=
  if (pairIndices s.agents.length).all (fun p => p.2 < s.opinions.length) then
    let reviews := aggregate_pairwise_results (pairEntries s.agents pairGen)
    ({ s with
       stage := SessionStage.review
       reviews := reviews
       token_usage := update_total_usage
         { s.token_usage with
           stage2_review :=
             some (calculate_stage_usage "review"
               (reviews.map ReviewResult.usageItem)) } },
     latency_crash_msg)
  else
    ({ s with stage := SessionStage.review }, "list index out of range")

/-- Data a successful chairman generation call contributes
(content and the `prompt_eval_count` / `eval_count` fields). -/
structure ChairmanOutcome where
  content : String
  prompt_tokens : Nat
  completion_tokens : Nat
  duration_ms : Nat
deriving DecidableEq, Repr, Inhabited

/-- `model = chairman_model or self.settings.chairman_model`: the Python
`or` falls back to the settings value on a falsy (empty) string. -/
def resolveChairman (chairman_model settings_chairman : String) : String :=
  if chairman_model = "" then settings_chairman else chairman_model

/-- `CouncilService.stage3_synthesis` applied to a session: sets the
stage to `SYNTHESIS` (council.py:488); if the chairman generation call
raises, that exception escapes with only the stage mutated; otherwise
the method assigns `final_answer` (:527) and the Stage-3 token usage
(:530-543) and then raises in the latency bookkeeping (:546-551) —
BEFORE `update_stage(COMPLETE)` at :553, which is therefore
unreachable.  Either way the session the caller observes has
`stage = SYNTHESIS`, with `final_answer` already set on the
successful-call path. -/
def stage3Update (s : CouncilSession) (model : String)
    (chair : Except String ChairmanOutcome) :
    CouncilSession × String :=
  let s3 := { s with stage := SessionStage.synthesis }
  match chair with
  | .error e => (s3, e)
  | .ok out =>
    let top_agents := get_top_ranked_agents s3.reviews 3
    let fa : FinalAnswer :=
      { content := out.content
        chairman_model := model
        tokens_used := out.prompt_tokens + out.completion_tokens
        duration_ms := out.duration_ms
        sources_cited := top_agents }
    ({ s3 with
       final_answer := some fa
       token_usage := update_total_usage
         { s3.token_usage with
           stage3_synthesis := some
             { stage := "synthesis"
               total_prompt_tokens := out.prompt_tokens
               total_completion_tokens := out.completion_tokens
               total_tokens := out.prompt_tokens + out.completion_tokens
               by_model := [(model,
                 { prompt_tokens := out.prompt_tokens
                   completion_tokens := out.completion_tokens
                   total_tokens := out.prompt_tokens + out.completion_tokens })] } } },
     latency_crash_msg)

/-- `run_council`'s `except` block: `session.error = str(e)` followed by
`session.update_stage(SessionStage.ERROR)`. -/
def failSession (s : CouncilSession) (e : String) : CouncilSession :=
  { s with error := some e, stage := .error }

/-- `CouncilService.run_council` (lines 731-766): creates the session
and enters the `try` block.  The Stage-1 call always raises (in its
latency bookkeeping, after assigning the opinions and their usage), so
the `stage2_review` and `stage3_synthesis` calls at council.py:753 and
:756 are never reached; the `except` block records the message and
forces the `ERROR` stage.  The `pairGen` and `chair` oracles and the
chairman-model resolution are consequently never consulted. -/
def run_council (settings_chairman : String) (request : CouncilRequest)
    (gen : Nat → Except String GenResult)
    (pairGen : Nat → Nat → Except String PairOutcome)
    (chair : Except String ChairmanOutcome) : CouncilSession :=
  let s0 := create_session request
  let r1 := stage1Update s0 gen
  failSession r1.1 r1.2

/-! ### Master mode: worker dispatch (api/worker_routes.py, lines 16-47;
services/council.py, lines 205-215, 352-362, 772-817) -/

/-- The JSON body the worker's `/api/generate` endpoint returns:
`response_model=GenerateResponse` serialises exactly the five declared
fields — there is no `prompt_eval_count` key. -/
def generateResponseJson (g : GenerateResponse) : List (String × Json) :=
  [("model", .str g.model),
   ("content", .str g.content),
   ("done", .bool g.done),
   ("total_duration", .num (Int.ofNat g.total_duration)),
   ("eval_count", .num (Int.ofNat g.eval_count))]

/-- `worker_routes.generate`: wraps a successful `OllamaClient.generate`
result into a `GenerateResponse` (dropping Ollama's
`prompt_eval_count`). -/
def workerGenerate (reqModel : String) (r : OllamaGenerateResult) :
    GenerateResponse :=
  { model := reqModel
    content := r.response
    done := r.done
    total_duration := r.total_duration
    eval_count := r.eval_count }

/-- `response.json()` of a successful `_call_worker` round trip. -/
def callWorkerJson (reqModel : String) (r : OllamaGenerateResult) :
    List (String × Json) :=
  generateResponseJson (workerGenerate reqModel r)

/-- Read a numeric field the way the master does:
`response.get(key, 0)`. -/
def jsonFieldNat (resp : List (String × Json)) (k : String) : Nat :=
  match dictGet resp k (.num 0) with
  | .num n => n.toNat
  | _ => 0

/-- Read a string field the way the master does:
`response.get("content", dflt)`. -/
def jsonFieldStr (resp : List (String × Json)) (k : String) (dflt : String) :
    String :=
  match dictGet resp k (.str dflt) with
  | .str s => s
  | _ => dflt

/-- Master-mode branch of `_generate_opinion` (lines 205-215): the
`GenResult` extracted from a successful worker call. -/
def masterGenResult (model : String) (r : OllamaGenerateResult)
    (dur : Nat) : GenResult :=
  let resp := callWorkerJson model r
  { content := jsonFieldStr resp "content" ""
    prompt_tokens := jsonFieldNat resp "prompt_eval_count"
    completion_tokens := jsonFieldNat resp "eval_count"
    duration_ms := dur }

/-- Master-mode branch of `_generate_pairwise_review` (lines 352-362):
the `PairOutcome` extracted from a successful worker call, with `parsed`
the `json.loads` outcome of `response.get("content", "{}")`. -/
def masterPairOutcome (model : String) (r : OllamaGenerateResult)
    (parsed : Option Json) (dur : Nat) : PairOutcome :=
  let resp := callWorkerJson model r
  { parsed := parsed
    prompt_tokens := jsonFieldNat resp "prompt_eval_count"
    completion_tokens := jsonFieldNat resp "eval_count"
    duration_ms := dur }

/-! ## Claim C2: score-parsing totality -/

/-- C2 counterexample: the claim "for every input string
`_parse_pairwise_response` returns without raising" is false.  On any
input that is valid JSON whose top-level value is not an object — e.g.
the string `"5"`, which `json.loads` parses to the integer `5` — the
call `data.get("score", 5)` raises `AttributeError`, which is not in the
caught exception tuple and propagates to the caller. -/
theorem C2_counterexample_nonobject_raises :
    parse_pairwise_response (some (Json.num 5)) =
      Except.error PyExc.attributeError := rfl

/-- C2 (amended): for every `json.loads` outcome that is either a parse
failure or a JSON object, `_parse_pairwise_response` returns normally
with a score in `[1, 10]`; a numeric score is clamped into `[1, 10]`,
and any parse failure — malformed JSON, or a `score` field that `int()`
rejects — yields the neutral default `5` with the parse-error reasoning
string.  (Valid JSON whose top level is not an object instead raises an
uncaught `AttributeError`, see the counterexample.) -/
theorem C2_parse_total_on_objects (parsed : Option Json)
    (h : parsed = none ∨ ∃ kvs, parsed = some (Json.obj kvs)) :
    ∃ s r, parse_pairwise_response parsed = Except.ok (s, r)
      ∧ 1 ≤ s ∧ s ≤ 10
      ∧ (parsed = none →
          s = 5 ∧ r = "Parse error - defaulting to neutral score")
      ∧ (∀ kvs, parsed = some (Json.obj kvs) →
          (∀ n, pyInt (dictGet kvs "score" (Json.num 5)) = Except.ok n →
            s = max 1 (min 10 n))
          ∧ (∀ e, pyInt (dictGet kvs "score" (Json.num 5)) = Except.error e →
            s = 5 ∧ r = "Parse error - defaulting to neutral score")) := by
  rcases h with rfl | ⟨kvs, rfl⟩
  · exact ⟨5, _, rfl, by omega, by omega, fun _ => ⟨rfl, rfl⟩,
      fun kvs hk => by cases hk⟩
  · cases hpi : pyInt (dictGet kvs "score" (Json.num 5)) with
    | error e =>
      refine ⟨5, "Parse error - defaulting to neutral score", ?_, ?_, ?_, ?_, ?_⟩
      · simp [parse_pairwise_response, hpi]
      · omega
      · omega
      · intro hc
        cases hc
      · intro kvs' hk
        obtain rfl : kvs = kvs' := by
          injection hk with hk1
          injection hk1
        refine ⟨fun n hn => ?_, fun e' _ => ⟨rfl, rfl⟩⟩
        rw [hpi] at hn
        cases hn
    | ok n =>
      refine ⟨max 1 (min 10 n),
        pyStr (dictGet kvs "reasoning" (Json.str "No reasoning provided")),
        ?_, ?_, ?_, ?_, ?_⟩
      · simp [parse_pairwise_response, hpi]
      · omega
      · omega
      · intro hc
        cases hc
      · intro kvs' hk
        obtain rfl : kvs = kvs' := by
          injection hk with hk1
          injection hk1
        refine ⟨fun n' hn' => ?_, fun e' he' => ?_⟩
        · rw [hpi] at hn'
          cases hn'
          rfl
        · rw [hpi] at he'
          cases he'

/-- C2 witness: a JSON object with an out-of-range numeric score parses
to the clamped value 10. -/
theorem C2_witness :
    (∃ s r,
        parse_pairwise_response (some (Json.obj [("score", Json.num 99)])) =
          Except.ok (s, r) ∧ 1 ≤ s ∧ s ≤ 10)
    ∧ parse_pairwise_response (some (Json.obj [("score", Json.num 99)])) =
        Except.ok (10, "No reasoning provided") := by
  constructor
  · obtain ⟨s, r, h1, h2, h3, -⟩ :=
      C2_parse_total_on_objects (some (Json.obj [("score", Json.num 99)]))
        (Or.inr ⟨_, rfl⟩)
    exact ⟨s, r, h1, h2, h3⟩
  · rfl

/-! ## Claim C10: master-mode prompt tokens are always zero -/

/-- C10: whenever a worker URL is configured, every Opinion and every
pairwise review outcome built from a successful worker call has
`prompt_tokens = 0`: the worker's `GenerateResponse` body carries only
`eval_count`, never a `prompt_eval_count` key, so
`response.get("prompt_eval_count", 0)` always yields the default 0,
regardless of the Ollama-side `prompt_eval_count`. -/
theorem C10_master_prompt_tokens_zero :
    (∀ (model : String) (r : OllamaGenerateResult) (dur : Nat),
      (masterGenResult model r dur).prompt_tokens = 0)
    ∧ (∀ (model : String) (r : OllamaGenerateResult) (parsed : Option Json)
        (dur : Nat),
      (masterPairOutcome model r parsed dur).prompt_tokens = 0)
    ∧ (∀ (i : Nat) (agent : AgentConfig) (r : OllamaGenerateResult) (dur : Nat),
      (generate_opinion i agent (masterGenResult agent.model r dur)).prompt_tokens = 0) := by
  refine ⟨fun model r dur => rfl, fun model r parsed dur => rfl,
    fun i agent r dur => rfl⟩

/-! ## Claim C1: Opinion-Stage shape -/

theorem opinionFor_agent_id (i : Nat) (agent : AgentConfig)
    (res : Except String GenResult) :
    (opinionFor i agent res).agent_id = mkAgentId i := by
  cases res <;> rfl

theorem stage1_opinions_length (agents : List AgentConfig)
    (gen : Nat → Except String GenResult) :
    (stage1_opinions agents gen).length = agents.length := by
  simp [stage1_opinions]

theorem stage1_opinions_getD (agents : List AgentConfig)
    (gen : Nat → Except String GenResult) {i : Nat} (h : i < agents.length) :
    (stage1_opinions agents gen).getD i default =
      opinionFor i (agents.getD i default) (gen i) := by
  simp [stage1_opinions, List.getD_eq_getElem?_getD, List.getElem?_map,
    List.getElem?_range h]

/-- Positional ids are distinct for indices below the pydantic agent
bound (`CouncilRequest` validates at most 5 selected agents). -/
theorem mkAgentId_inj_lt_five :
    ∀ i, i < 5 → ∀ j, j < 5 → mkAgentId i = mkAgentId j → i = j := by
  decide

/-- C1: after the Opinion Stage on a session with n agents (n ≤ 5 by the
pydantic request bound), the opinions list has length n; the opinion at
index i carries agent id `agent_{i+1}`, all such ids are distinct; a
failed generation call still yields an entry at its own index — the
error placeholder with the failure text in `content` and zero
prompt/completion/total token counts and duration — while a successful
call yields exactly the response built from its own call's data. -/
theorem C1_opinion_stage_shape (agents : List AgentConfig)
    (gen : Nat → Except String GenResult) (hn : agents.length ≤ 5) :
    (stage1_opinions agents gen).length = agents.length
    ∧ (∀ i, i < agents.length →
        ((stage1_opinions agents gen).getD i default).agent_id = mkAgentId i)
    ∧ (∀ i j, i < agents.length → j < agents.length → i ≠ j →
        ((stage1_opinions agents gen).getD i default).agent_id ≠
          ((stage1_opinions agents gen).getD j default).agent_id)
    ∧ (∀ i e, i < agents.length → gen i = .error e →
        (stage1_opinions agents gen).getD i default =
          errorOpinion i (agents.getD i default) e)
    ∧ (∀ i out, i < agents.length → gen i = .ok out →
        (stage1_opinions agents gen).getD i default =
          generate_opinion i (agents.getD i default) out) := by
  refine ⟨stage1_opinions_length agents gen, ?_, ?_, ?_, ?_⟩
  · intro i hi
    rw [stage1_opinions_getD agents gen hi, opinionFor_agent_id]
  · intro i j hi hj hne
    rw [stage1_opinions_getD agents gen hi, stage1_opinions_getD agents gen hj,
      opinionFor_agent_id, opinionFor_agent_id]
    intro hc
    exact hne (mkAgentId_inj_lt_five i (by omega) j (by omega) hc)
  · intro i e hi he
    rw [stage1_opinions_getD agents gen hi, he]
    rfl
  · intro i out hi ho
    rw [stage1_opinions_getD agents gen hi, ho]
    rfl

/-- C1 witness: two agents, the first call succeeding and the second
raising. -/
theorem C1_witness :
    (stage1_opinions [⟨"A", "m1"⟩, ⟨"B", "m2"⟩]
        (fun i => if i = 0 then Except.ok ⟨"hi", 1, 2, 3⟩
                  else Except.error "boom")).length = 2
    ∧ ((stage1_opinions [⟨"A", "m1"⟩, ⟨"B", "m2"⟩]
        (fun i => if i = 0 then Except.ok ⟨"hi", 1, 2, 3⟩
                  else Except.error "boom")).getD 1 default) =
        errorOpinion 1 ⟨"B", "m2"⟩ "boom"
    ∧ ((stage1_opinions [⟨"A", "m1"⟩, ⟨"B", "m2"⟩]
        (fun i => if i = 0 then Except.ok ⟨"hi", 1, 2, 3⟩
                  else Except.error "boom")).getD 0 default) =
        generate_opinion 0 ⟨"A", "m1"⟩ ⟨"hi", 1, 2, 3⟩ := by
  have h := C1_opinion_stage_shape [⟨"A", "m1"⟩, ⟨"B", "m2"⟩]
    (fun i => if i = 0 then Except.ok ⟨"hi", 1, 2, 3⟩ else Except.error "boom")
    (by decide)
  exact ⟨h.1, h.2.2.2.1 1 "boom" (by decide) rfl,
    h.2.2.2.2 0 ⟨"hi", 1, 2, 3⟩ (by decide) rfl⟩

/-! ## Pairwise-stage lemmas (towards C3 and C5) -/

/-- Whether a gathered result is a success (not an
`isinstance(result, Exception)` entry). -/
def isOkResult {ε α : Type} : Except ε α → Bool
  | .ok _ => true
  | .error _ => false

theorem mem_pairIndices {n : Nat} {p : Nat × Nat} :
    p ∈ pairIndices n ↔ p.1 < n ∧ p.2 < n ∧ p.2 ≠ p.1 := by
  obtain ⟨i, j⟩ := p
  simp only [pairIndices, List.mem_flatMap, List.mem_map, List.mem_filter,
    List.mem_range, decide_eq_true_eq, Prod.mk.injEq]
  constructor
  · rintro ⟨a, ha, b, ⟨hb, hbne⟩, rfl, rfl⟩
    exact ⟨ha, hb, hbne⟩
  · rintro ⟨hi, hj, hne⟩
    exact ⟨i, hi, j, ⟨hj, hne⟩, rfl, rfl⟩

theorem length_filter_ne {n i : Nat} (h : i < n) :
    ((List.range n).filter fun j => j ≠ i).length = n - 1 := by
  induction n with
  | zero => omega
  | succ m ih =>
    rw [List.range_succ, List.filter_append, List.length_append]
    by_cases him : i < m
    · rw [ih him]
      have hmi : (List.filter (fun j => j ≠ i) [m]).length = 1 := by
        have : m ≠ i := by omega
        simp [this]
      rw [hmi]
      omega
    · have hieq : i = m := by omega
      subst hieq
      have h1 : (List.filter (fun j => j ≠ i) [i]).length = 0 := by simp
      have h2 : (List.range i).filter (fun j => j ≠ i) = List.range i := by
        apply List.filter_eq_self.mpr
        intro a ha
        simp only [List.mem_range] at ha
        simp only [decide_eq_true_eq]
        omega
      rw [h1, h2, List.length_range]
      omega

theorem length_pairIndices (n : Nat) :
    (pairIndices n).length = n * (n - 1) := by
  rw [pairIndices, List.length_flatMap]
  have hcongr : ∀ a ∈ List.range n,
      (List.length ∘ fun i =>
        ((List.range n).filter fun j => j ≠ i).map fun j => (i, j)) a
      = (fun _ : Nat => n - 1) a := by
    intro a ha
    simp only [Function.comp, List.length_map]
    exact length_filter_ne (List.mem_range.mp ha)
  rw [List.map_congr_left hcongr, List.map_const', List.length_range,
    List.sum_replicate, smul_eq_mul]

theorem sumRank_groupFold :
    ∀ (entries : List (PairMeta × Except String PairEval))
      (acc : List (String × GroupData)),
    sumVal (fun d => d.rankings.length) (entries.foldl groupStep acc)
      = sumVal (fun d => d.rankings.length) acc
        + entries.countP (fun e => isOkResult e.2) := by
  intro entries
  induction entries with
  | nil =>
    intro acc
    simp [sumVal]
  | cons e rest ih =>
    intro acc
    rw [List.foldl_cons, List.countP_cons, ih]
    cases he : e.2 with
    | error msg =>
      rw [show groupStep acc e = acc from by simp [groupStep, he]]
      simp [he, isOkResult]
    | ok pe =>
      rw [show groupStep acc e =
            upsert e.1.reviewer_id (addEval pe) (initGroup e.1 pe) acc from by
          simp [groupStep, he]]
      rw [sumVal_upsert (m := 1) (fun d => by simp [addEval])
        (by simp [initGroup, addEval]) acc]
      simp [he, isOkResult]
      omega

theorem keysOf_groupFold_nodup :
    ∀ (entries : List (PairMeta × Except String PairEval))
      (acc : List (String × GroupData)),
    (keysOf acc).Nodup → (keysOf (entries.foldl groupStep acc)).Nodup := by
  intro entries
  induction entries with
  | nil =>
    intro acc h
    exact h
  | cons e rest ih =>
    intro acc h
    rw [List.foldl_cons]
    apply ih
    cases he : e.2 with
    | error msg =>
      rw [show groupStep acc e = acc from by simp [groupStep, he]]
      exact h
    | ok pe =>
      rw [show groupStep acc e =
            upsert e.1.reviewer_id (addEval pe) (initGroup e.1 pe) acc from by
          simp [groupStep, he]]
      exact nodup_keysOf_upsert h

theorem mem_keysOf_groupFold :
    ∀ (entries : List (PairMeta × Except String PairEval))
      (acc : List (String × GroupData)) (a : String),
    a ∈ keysOf (entries.foldl groupStep acc) ↔
      a ∈ keysOf acc
      ∨ ∃ e ∈ entries, e.1.reviewer_id = a ∧ ∃ pe, e.2 = .ok pe := by
  intro entries
  induction entries with
  | nil =>
    intro acc a
    simp
  | cons e rest ih =>
    intro acc a
    rw [List.foldl_cons, ih]
    cases he : e.2 with
    | error msg =>
      rw [show groupStep acc e = acc from by simp [groupStep, he]]
      constructor
      · rintro (h | ⟨e', he', h1, pe, h2⟩)
        · exact Or.inl h
        · exact Or.inr ⟨e', List.mem_cons_of_mem _ he', h1, pe, h2⟩
      · rintro (h | ⟨e', he', h1, pe, h2⟩)
        · exact Or.inl h
        · rcases List.mem_cons.mp he' with rfl | he''
          · rw [he] at h2
            cases h2
          · exact Or.inr ⟨e', he'', h1, pe, h2⟩
    | ok pe =>
      rw [show groupStep acc e =
            upsert e.1.reviewer_id (addEval pe) (initGroup e.1 pe) acc from by
          simp [groupStep, he]]
      rw [mem_keysOf_upsert]
      constructor
      · rintro ((h | rfl) | ⟨e', he', h1, pe', h2⟩)
        · exact Or.inl h
        · exact Or.inr ⟨e, List.mem_cons_self _ _, rfl, pe, he⟩
        · exact Or.inr ⟨e', List.mem_cons_of_mem _ he', h1, pe', h2⟩
      · rintro (h | ⟨e', he', h1, pe', h2⟩)
        · exact Or.inl (Or.inl h)
        · rcases List.mem_cons.mp he' with rfl | he''
          · exact Or.inl (Or.inr h1.symm)
          · exact Or.inr ⟨e', he'', h1, pe', h2⟩

theorem groupFold_rankings_pred (R : String → ReviewRanking → Prop) :
    ∀ (entries : List (PairMeta × Except String PairEval))
      (acc : List (String × GroupData)),
    (∀ e ∈ entries, ∀ pe, e.2 = .ok pe → R e.1.reviewer_id (mkRanking pe)) →
    (∀ p ∈ acc, ∀ rk ∈ p.2.rankings, R p.1 rk) →
    ∀ p ∈ entries.foldl groupStep acc, ∀ rk ∈ p.2.rankings, R p.1 rk := by
  intro entries
  induction entries with
  | nil =>
    intro acc _ hacc
    simpa using hacc
  | cons e rest ih =>
    intro acc hent hacc
    rw [List.foldl_cons]
    apply ih
    · intro e' he' pe hpe
      exact hent e' (List.mem_cons_of_mem _ he') pe hpe
    · cases he : e.2 with
      | error msg =>
        rw [show groupStep acc e = acc from by simp [groupStep, he]]
        exact hacc
      | ok pe =>
        rw [show groupStep acc e =
              upsert e.1.reviewer_id (addEval pe) (initGroup e.1 pe) acc from by
            simp [groupStep, he]]
        intro p hp rk hrk
        have hR : R e.1.reviewer_id (mkRanking pe) :=
          hent e (List.mem_cons_self _ _) pe he
        rcases mem_upsert hp with hmem | ⟨hfst, hrest⟩
        · exact hacc p hmem rk hrk
        · rcases hrest with hinit | ⟨v, hv, hpv⟩
          · subst hinit
            have hrk' : rk = mkRanking pe := by
              simpa [initGroup, addEval] using hrk
            rw [hrk']
            exact hR
          · subst hpv
            simp only [addEval] at hrk
            rcases List.mem_append.mp hrk with hold | hnew
            · exact hacc (e.1.reviewer_id, v) hv rk hold
            · have hrk' : rk = mkRanking pe := by simpa using hnew
              rw [hrk']
              exact hR

theorem mem_pairEntries {agents : List AgentConfig}
    {pg : Nat → Nat → Except String PairOutcome}
    {e : PairMeta × Except String PairEval} (he : e ∈ pairEntries agents pg) :
    ∃ i j, (i, j) ∈ pairIndices agents.length
      ∧ e.1.reviewer_id = mkAgentId i
      ∧ e.1.model = (agents.getD i default).model
      ∧ e.2 = pairCall agents pg i j := by
  simp only [pairEntries, List.mem_map] at he
  obtain ⟨p, hp, rfl⟩ := he
  exact ⟨p.1, p.2, hp, rfl, rfl, rfl⟩

theorem pairCall_ok {agents : List AgentConfig}
    {pg : Nat → Nat → Except String PairOutcome} {i j : Nat} {pe : PairEval}
    (h : pairCall agents pg i j = .ok pe) :
    pe.reviewer_id = mkAgentId i ∧ pe.target_id = mkAgentId j
      ∧ pe.model = (agents.getD i default).model := by
  cases hg : pg i j with
  | error e =>
    simp only [pairCall, hg] at h
    exact Except.noConfusion h
  | ok out =>
    simp only [pairCall, hg, generate_pairwise_review] at h
    cases hp : parse_pairwise_response out.parsed with
    | error e =>
      simp only [hp] at h
      exact Except.noConfusion h
    | ok pr =>
      obtain ⟨sc, rs⟩ := pr
      simp only [hp] at h
      injection h with h1
      rw [← h1]
      exact ⟨rfl, rfl, rfl⟩

theorem aggregate_sum_rankings
    (entries : List (PairMeta × Except String PairEval)) :
    ((aggregate_pairwise_results entries).map fun r => r.rankings.length).sum
      = entries.countP (fun e => isOkResult e.2) := by
  have h := sumRank_groupFold entries []
  simp only [sumVal, List.map_nil, List.sum_nil, Nat.zero_add] at h
  rw [← h]
  rw [aggregate_pairwise_results, List.map_map]
  apply congrArg List.sum
  apply List.map_congr_left
  intro p _
  rfl

theorem aggregate_reviewer_ids
    (entries : List (PairMeta × Except String PairEval)) :
    (aggregate_pairwise_results entries).map (fun r => r.reviewer_id)
      = keysOf (entries.foldl groupStep []) := by
  simp [aggregate_pairwise_results, keysOf, List.map_map, Function.comp,
    toReviewResult]

theorem aggregate_rankings_pred (R : String → ReviewRanking → Prop)
    (entries : List (PairMeta × Except String PairEval))
    (hent : ∀ e ∈ entries, ∀ pe, e.2 = .ok pe → R e.1.reviewer_id (mkRanking pe)) :
    ∀ r ∈ aggregate_pairwise_results entries, ∀ rk ∈ r.rankings,
      R r.reviewer_id rk := by
  intro r hr rk hrk
  simp only [aggregate_pairwise_results, List.mem_map] at hr
  obtain ⟨p, hp, rfl⟩ := hr
  exact groupFold_rankings_pred R entries [] hent (by simp) p hp rk
    (by simpa [toReviewResult] using hrk)

/-! ## Shared concrete fixtures for witnesses -/

/-- Two demo agents. -/
def demoAgents : List AgentConfig := [⟨"A", "m1"⟩, ⟨"B", "m2"⟩]

/-- A demo council request over the two demo agents. -/
def demoReq : CouncilRequest := ⟨"q", demoAgents, "chair"⟩

/-- Demo Stage-1 oracle: the first agent's call succeeds, the second
raises. -/
def demoGen : Nat → Except String GenResult :=
  fun i => if i = 0 then .ok ⟨"hi", 1, 2, 3⟩ else .error "boom"

/-- Demo pairwise oracle: reviewer 0's calls succeed with a JSON score
of 7, every other reviewer's call raises. -/
def demoPairGen : Nat → Nat → Except String PairOutcome :=
  fun i _ =>
    if i = 0 then
      .ok ⟨some (.obj [("score", .num 7), ("reasoning", .str "fine")]), 1, 2, 3⟩
    else
      .error "down"

/-- The demo session as mutated when `stage1_opinions` raises: the
opinions and the Stage-1 usage are recorded, the stage is `OPINIONS`. -/
def demoSession1 : CouncilSession :=
  (stage1Update (create_session demoReq) demoGen).1

/-- The demo session as mutated when a direct `stage2_review` invocation
raises: the reviews and the Stage-2 usage are recorded, the stage is
`REVIEW`. -/
def demoSession2 : CouncilSession :=
  (stage2Update demoSession1 demoPairGen).1

/-! ## Claim C3: ranking totals and self-ranking -/

/-- C3 (code bug): "after the pairwise Review Stage" is an event this
code cannot produce — a `stage2_review` invocation assigns the session's
reviews and their usage and then raises in the latency bookkeeping
(council.py:311), as the first conjunct evaluates.  The claimed bounds do
hold of the reviews list assigned before the raise: at most n·(n−1)
rankings in total, and no ranking targets its own reviewer. -/
theorem C3_review_invariants_hold_but_stage_crashes :
    (stage2Update demoSession1 demoPairGen).2 = latency_crash_msg
    ∧ demoSession2.stage = SessionStage.review
    ∧ ((demoSession2.reviews.map fun r => r.rankings.length).sum
        ≤ demoSession1.agents.length * (demoSession1.agents.length - 1))
    ∧ ∀ r ∈ demoSession2.reviews, ∀ rk ∈ r.rankings,
        rk.agent_id ≠ r.reviewer_id := by
  decide

/-! ## Claim C5: per-reviewer aggregation -/

/-- C5 (code bug): the Review Stage never completes (first conjunct: its
latency bookkeeping raises), so "after the pairwise Review Stage" never
occurs.  Of the reviews list the stage assigns before raising, the
claimed aggregation facts hold: at most one Review per agent id (hence
at most n in total), exactly one for reviewer `agent_1` whose pairwise
calls succeeded, and none for reviewer `agent_2` all of whose calls
raised. -/
theorem C5_reviewer_aggregation_at_crash_point :
    (stage2Update demoSession1 demoPairGen).2 = latency_crash_msg
    ∧ demoSession2.reviews.length ≤ demoSession1.agents.length
    ∧ (demoSession2.reviews.countP fun r => r.reviewer_id == mkAgentId 0) = 1
    ∧ ∀ r ∈ demoSession2.reviews, r.reviewer_id ≠ mkAgentId 1 := by
  decide

/-! ## Claim C4: final answer iff COMPLETE -/

/-- C4 (code bug): `stage3_synthesis` sets `final_answer`
(council.py:527) and then raises in its latency bookkeeping (:546)
before `update_stage(COMPLETE)` at :553, so a session that went through
a successful chairman call is left with `final_answer` set while its
stage is `SYNTHESIS` — violating "`final_answer` is non-null iff stage
is `COMPLETE`".  In the orchestrated `run_council` flow that violating
state is never even reached, because Stage 1 always raises first: there
the session ends at stage `ERROR` with `final_answer` null, and
`COMPLETE` never occurs at all. -/
theorem C4_final_answer_set_without_complete :
    (stage3Update (create_session demoReq) "phi3.5:mini"
        (Except.ok ⟨"ans", 1, 2, 3⟩)).1.final_answer ≠ none
    ∧ (stage3Update (create_session demoReq) "phi3.5:mini"
        (Except.ok ⟨"ans", 1, 2, 3⟩)).1.stage = SessionStage.synthesis
    ∧ (stage3Update (create_session demoReq) "phi3.5:mini"
        (Except.ok ⟨"ans", 1, 2, 3⟩)).2 = latency_crash_msg
    ∧ (run_council "set" demoReq demoGen demoPairGen
        (Except.ok ⟨"ans", 1, 2, 3⟩)).final_answer = none
    ∧ (run_council "set" demoReq demoGen demoPairGen
        (Except.ok ⟨"ans", 1, 2, 3⟩)).stage = SessionStage.error :=
  ⟨fun hc => Option.noConfusion hc, rfl, rfl, rfl, rfl⟩

/-! ## Claim C6: stage-usage accounting -/

/-- C6 divergence, evaluated on the demo run: the review stage's
`by_model` map is keyed `"unknown"`, not by the reviewers' model
identifiers (here `"m1"`/`"m2"`), because the pydantic `ReviewResult`
class silently drops the `model=` kwarg; the totals themselves are the
sums over the emitted reviews. -/
theorem C6_review_usage_keyed_unknown :
    (demoSession2.token_usage.stage2_review.map fun u => keysOf u.by_model)
        = some ["unknown"]
    ∧ demoSession1.agents.map AgentConfig.model = ["m1", "m2"]
    ∧ (demoSession2.token_usage.stage2_review.map
        fun u => u.total_prompt_tokens)
        = some ((demoSession2.reviews.map ReviewResult.prompt_tokens).sum)
    ∧ (demoSession2.token_usage.stage2_review.map
        fun u => u.total_completion_tokens)
        = some ((demoSession2.reviews.map ReviewResult.completion_tokens).sum) := by
  decide

/-! ## Claim C7: orchestrator error handling -/

/-- C7: for every request and all oracle outcomes, `run_council` ends in
a terminal stage drawn from `COMPLETE`/`ERROR` — in this code always
`ERROR`, because Stage 1 always raises an exception its per-call
isolation does not absorb (the latency-bookkeeping `NameError`).  That
first escaping exception aborts the remaining stages: the returned
session is exactly the Stage-1 partial state with the exception's
message recorded in `error` and the stage forced to `ERROR`; the Review
and Synthesis stages never execute (their artifacts — `reviews`,
`final_answer`, the Stage-2/3 usage slots — stay unset) and no retry
happens. -/
theorem C7_first_stage_exception_aborts_run (sc : String)
    (req : CouncilRequest) (gen : Nat → Except String GenResult)
    (pairGen : Nat → Nat → Except String PairOutcome)
    (chair : Except String ChairmanOutcome) :
    run_council sc req gen pairGen chair
      = failSession (stage1Update (create_session req) gen).1 latency_crash_msg
    ∧ (run_council sc req gen pairGen chair).error = some latency_crash_msg
    ∧ (run_council sc req gen pairGen chair).stage = SessionStage.error
    ∧ (run_council sc req gen pairGen chair).final_answer = none
    ∧ (run_council sc req gen pairGen chair).reviews = []
    ∧ (run_council sc req gen pairGen chair).token_usage.stage2_review = none
    ∧ (run_council sc req gen pairGen chair).token_usage.stage3_synthesis = none
    ∧ ((run_council sc req gen pairGen chair).stage = SessionStage.complete
        ∨ (run_council sc req gen pairGen chair).stage = SessionStage.error) :=
  ⟨rfl, rfl, rfl, rfl, rfl, rfl, rfl, Or.inr rfl⟩

/-! ## Claim C8: single-agent session -/

/-- C8 (code bug): with exactly one agent the pairwise task list is
indeed empty (n·(n−1) = 0), but the session cannot end in `COMPLETE`:
`run_council` aborts during Stage 1's latency bookkeeping even though
the opinion call succeeds, ending at stage `ERROR` with no
`FinalAnswer`; the reviews list is empty only because the Review Stage
never executes. -/
theorem C8_single_agent_run_ends_error :
    pairIndices (create_session ⟨"q", [⟨"Solo", "m"⟩], "chair"⟩).agents.length = []
    ∧ (run_council "set" ⟨"q", [⟨"Solo", "m"⟩], "chair"⟩
        (fun _ => .ok ⟨"hi", 1, 2, 3⟩) (fun _ _ => .error "x")
        (.ok ⟨"ans", 4, 5, 6⟩)).stage = SessionStage.error
    ∧ (run_council "set" ⟨"q", [⟨"Solo", "m"⟩], "chair"⟩
        (fun _ => .ok ⟨"hi", 1, 2, 3⟩) (fun _ _ => .error "x")
        (.ok ⟨"ans", 4, 5, 6⟩)).error = some latency_crash_msg
    ∧ (run_council "set" ⟨"q", [⟨"Solo", "m"⟩], "chair"⟩
        (fun _ => .ok ⟨"hi", 1, 2, 3⟩) (fun _ _ => .error "x")
        (.ok ⟨"ans", 4, 5, 6⟩)).reviews = []
    ∧ (run_council "set" ⟨"q", [⟨"Solo", "m"⟩], "chair"⟩
        (fun _ => .ok ⟨"hi", 1, 2, 3⟩) (fun _ _ => .error "x")
        (.ok ⟨"ans", 4, 5, 6⟩)).final_answer = none := by
  refine ⟨by decide, rfl, rfl, rfl, rfl⟩

/-! ## Claim C9: mean scores are order-independent -/

theorem getVal_of_not_mem {β : Type} {dflt : β} {l : List (String × β)}
    {a : String} (h : a ∉ keysOf l) : getVal dflt l a = dflt := by
  induction l with
  | nil => rfl
  | cons q rest ih =>
    obtain ⟨k, v⟩ := q
    have hk : k ≠ a := by
      intro hc
      exact h (by rw [hc]; exact List.mem_cons_self _ _)
    simp only [getVal, if_neg hk]
    exact ih (fun hc => h (List.mem_cons_of_mem _ hc))

/-- The scores a traversal of `rankings` appends for `aid`, in order. -/
def scoresOf (ks : List ReviewRanking) (aid : String) : List Int :=
  (ks.filter fun rk => rk.agent_id == aid).map fun rk => rk.score

/-- The flat traversal order of all rankings, reviews first to last. -/
def flatScores (reviews : List ReviewResult) (aid : String) : List Int :=
  scoresOf (reviews.flatMap fun r => r.rankings) aid

theorem getVal_scoreFold (ks : List ReviewRanking) :
    ∀ (acc : List (String × List Int)) (aid : String),
    getVal [] (ks.foldl scoreStep acc) aid = getVal [] acc aid ++ scoresOf ks aid := by
  induction ks with
  | nil =>
    intro acc aid
    simp [scoresOf]
  | cons rk rest ih =>
    intro acc aid
    rw [List.foldl_cons, ih]
    by_cases hk : rk.agent_id = aid
    · have hstep : getVal [] (scoreStep acc rk) aid = getVal [] acc aid ++ [rk.score] := by
        rw [scoreStep, ← hk, getVal_upsert_self]
        by_cases hmem : rk.agent_id ∈ keysOf acc
        · rw [if_pos hmem]
        · rw [if_neg hmem, getVal_of_not_mem hmem]
          rfl
      rw [hstep]
      have hsc : scoresOf (rk :: rest) aid = rk.score :: scoresOf rest aid := by
        simp [scoresOf, hk]
      rw [hsc, List.append_assoc]
      rfl
    · have hstep : getVal [] (scoreStep acc rk) aid = getVal [] acc aid :=
        getVal_upsert_ne acc (fun hc => hk hc.symm)
      rw [hstep]
      have hsc : scoresOf (rk :: rest) aid = scoresOf rest aid := by
        simp [scoresOf, hk]
      rw [hsc]

theorem collectScores_getVal (reviews : List ReviewResult) (aid : String) :
    getVal [] (collectScores reviews) aid = flatScores reviews aid := by
  suffices h : ∀ acc : List (String × List Int),
      getVal [] (reviews.foldl (fun acc r => r.rankings.foldl scoreStep acc) acc) aid
        = getVal [] acc aid ++ flatScores reviews aid by
    have h0 := h []
    simpa [collectScores] using h0
  induction reviews with
  | nil =>
    intro acc
    simp [flatScores, scoresOf]
  | cons r rest ih =>
    intro acc
    rw [List.foldl_cons, ih, getVal_scoreFold]
    have : flatScores (r :: rest) aid = scoresOf r.rankings aid ++ flatScores rest aid := by
      simp [flatScores, scoresOf, List.flatMap_cons, List.filter_append]
    rw [this, List.append_assoc]

theorem perm_flatMap {α β : Type} (f : α → List β) {l₁ l₂ : List α}
    (h : l₁.Perm l₂) : (l₁.flatMap f).Perm (l₂.flatMap f) := by
  induction h with
  | nil => exact List.Perm.refl _
  | cons x h ih =>
    simp only [List.flatMap_cons]
    exact ih.append_left (f x)
  | swap x y l =>
    simp only [List.flatMap_cons]
    rw [← List.append_assoc, ← List.append_assoc]
    exact (List.perm_append_comm).append_right _
  | trans h1 h2 ih1 ih2 => exact ih1.trans ih2

theorem perm_flatScores {rs rs' : List ReviewResult} (hp : rs.Perm rs')
    (aid : String) : (flatScores rs aid).Perm (flatScores rs' aid) := by
  unfold flatScores scoresOf
  exact ((perm_flatMap (fun r => r.rankings) hp).filter _).map _

/-- C9: the per-agent mean score that the chairman's ranking summary
computes (`sum(score_list) / len(score_list)` over the `scores` dict) is
the same for any permutation of the input reviews, for every agent that
received at least one ranking. -/
theorem C9_mean_scores_order_independent (rs rs' : List ReviewResult)
    (hp : rs.Perm rs') (aid : String)
    (h : getVal [] (collectScores rs) aid ≠ []) :
    meanScoreFor rs aid = meanScoreFor rs' aid := by
  have hperm : (flatScores rs aid).Perm (flatScores rs' aid) :=
    perm_flatScores hp aid
  have hsum : ((flatScores rs aid).map fun n : Int => (n : ℚ)).sum
      = ((flatScores rs' aid).map fun n : Int => (n : ℚ)).sum :=
    (hperm.map _).sum_eq
  have hlen : (flatScores rs aid).length = (flatScores rs' aid).length :=
    hperm.length_eq
  rw [meanScoreFor, meanScoreFor, collectScores_getVal, collectScores_getVal,
    ratMean, ratMean, hsum, hlen]

/-- C9 witness: swapping two concrete reviews leaves `agent_3`'s mean
unchanged. -/
theorem C9_witness :
    meanScoreFor
      [⟨"agent_1", "A", [⟨"agent_3", 8, "x"⟩], 1, 2⟩,
       ⟨"agent_2", "B", [⟨"agent_3", 5, "y"⟩], 3, 4⟩] "agent_3"
    = meanScoreFor
      [⟨"agent_2", "B", [⟨"agent_3", 5, "y"⟩], 3, 4⟩,
       ⟨"agent_1", "A", [⟨"agent_3", 8, "x"⟩], 1, 2⟩] "agent_3" :=
  C9_mean_scores_order_independent _ _
    (List.Perm.swap ⟨"agent_2", "B", [⟨"agent_3", 5, "y"⟩], 3, 4⟩
      ⟨"agent_1", "A", [⟨"agent_3", 8, "x"⟩], 1, 2⟩ [])
    "agent_3" (by decide)

end Council
